import Mathlib

/-
Verification development for the mqtt2influxdb message-to-record
transformation engine (src/mqtt2influxdb/mqtt2influxdb.py).

The Python handler `Mqtt2InfluxDB._on_mqtt_message` and its helper
`_get_value_from_str_or_JSONPath` are shallowly embedded below.  Python
values flowing through the engine (decoded JSON payloads, the message
context dict, resolved field/tag values) are modelled by the inductive
type `Value`; the Python object `None` is modelled by `Value.null`
(Python's JSON decoder maps JSON null to None, and jsonpath matches of a
null value are indistinguishable from "no value" in the handler, exactly
as in the source).  Python exceptions are modelled by `Except PyErr`;
an uncaught exception aborts the handler for the current message.

External collaborators (the JSON parser, the cron evaluator, base64,
the `requests` verb table, the host clock and timezone) are parameters
collected in an `Env` record; the InfluxDB write and the HTTP call are
modelled as emitted `Effect`s.
-/

namespace M2I

/-- Python exceptions distinguished by the handler. `valueError` is the
only class caught around conversion functions; everything else that is
raised inside uncaught positions aborts the message. -/
inductive PyErr where
  | valueError
  | typeError
  | attributeError
  | keyError
  | unicodeDecodeError
  | undefinedVariable
  deriving DecidableEq, Repr

/-- Python runtime values that flow through the engine: JSON values,
bytes objects and floats.  `null` doubles as Python `None`. -/
inductive Value where
  | null
  | bool (b : Bool)
  | int (n : Int)
  | float (q : Rat)
  | str (s : String)
  | arr (xs : List Value)
  | obj (kvs : List (String × Value))
  | bytes (bs : List Nat)
  deriving Repr

/-- Dictionary lookup (Python `d[k]` / `k in d`), first binding wins;
config and message dicts never hold duplicate keys. -/
def lookupKV (kvs : List (String × Value)) (k : String) : Option Value :=
  match kvs with
  | [] => none
  | (k1, v) :: rest => if k1 = k then some v else lookupKV rest k

/-- Dictionary update `d[k] = v` / `d.update({k: v})`: replaces the
binding if the key is present, otherwise appends it. -/
def setKV (kvs : List (String × Value)) (k : String) (v : Value) :
    List (String × Value) :=
  match kvs with
  | [] => [(k, v)]
  | (k1, v1) :: rest =>
      if k1 = k then (k1, v) :: rest else (k1, v1) :: setKV rest k v

/-- `record[name][key] = v` on a dict-valued `Value`; non-dict values are
left unchanged (the handler never hits that case). -/
def objSet (v : Value) (k : String) (x : Value) : Value :=
  match v with
  | .obj kvs => .obj (setKV kvs k x)
  | other => other

/-- Python's `x is None` test. -/
def Value.isNull : Value → Bool
  | .null => true
  | _ => false

/-- Python's `isinstance(x, dict)`-like shape test (used to model which
payloads have a `.keys()` method). -/
def Value.isObj : Value → Bool
  | .obj _ => true
  | _ => false

/-- Python truthiness of a `Value`, as used by `if not record['fields']`
and `if tmp:` in the source. -/
def pyTruthy : Value → Bool
  | .null => false
  | .bool b => b
  | .int n => n != 0
  | .float q => q != 0
  | .str s => s != ""
  | .arr xs => !xs.isEmpty
  | .obj kvs => !kvs.isEmpty
  | .bytes bs => !bs.isEmpty

/-- Split a character list at every occurrence of the separator
character, accumulating the current segment in reverse (the core of
Python's `str.split` with a one-character separator). -/
def splitOnCharAux (c : Char) : List Char → List Char → List String
  | [], acc => [acc.reverse.asString]
  | x :: rest, acc =>
      if x = c then acc.reverse.asString :: splitOnCharAux c rest []
      else splitOnCharAux c rest (x :: acc)

/-- Python's `str.split(sep)` for a one-character separator (used for
`message.topic.split('/')` and the topic-filter levels). -/
def splitOnChar (c : Char) (s : String) : List String :=
  splitOnCharAux c s.toList []

/-- Python's `str.startswith` (and paho's prefix tests), phrased over
character lists so that it evaluates by kernel reduction. -/
def strStartsWith (s pre : String) : Bool :=
  pre.toList.isPrefixOf s.toList

/-- Split a character list at every occurrence of the two-character
separator `__` (Python `str.split('__')` for the placeholder grammar). -/
def splitOnUUAux : List Char → List Char → List String
  | [], acc => [acc.reverse.asString]
  | '_' :: '_' :: rest, acc =>
      acc.reverse.asString :: splitOnUUAux rest []
  | x :: rest, acc => splitOnUUAux rest (x :: acc)

/-- One step of a compiled jsonpath (`jsonpath_ng` `Fields` / `Index`
child steps, the only shapes the configuration compiler produces for the
dotted paths used by this program). -/
inductive Step where
  | field (f : String)
  | index (i : Nat)
  deriving DecidableEq, Repr

/-- `jsonpath_ng` `find` for a chain of child steps: the list of matched
values (empty when the path selects nothing).  A `field` step matches
only inside a dict, an `index` step only inside a list, as in
`jsonpath_ng`. -/
def pathFind : List Step → Value → List Value
  | [], v => [v]
  | .field f :: rest, .obj kvs =>
      match lookupKV kvs f with
      | some v => pathFind rest v
      | none => []
  | .index i :: rest, .arr xs =>
      match xs.get? i with
      | some v => pathFind rest v
      | none => []
  | _, _ => []

/-- Abstract syntax of a `py_expression_eval` arithmetic expression as
produced by the configuration compiler (numeric literals, variables and
the arithmetic operators used by rules). -/
inductive PExpr where
  | num (n : Int)
  | var (v : String)
  | add (a b : PExpr)
  | sub (a b : PExpr)
  | mul (a b : PExpr)
  deriving DecidableEq, Repr

/-- The variables occurring in an expression, in first-occurrence order
(`py_expression_eval`'s `Expression.variables()`); duplicates are kept,
which binds the same value twice and is observably identical. -/
def PExpr.variables : PExpr → List String
  | .num _ => []
  | .var v => [v]
  | .add a b => a.variables ++ b.variables
  | .sub a b => a.variables ++ b.variables
  | .mul a b => a.variables ++ b.variables

/-- Numeric view taken by `py_expression_eval` arithmetic: Python ints
and bools participate; other operand types raise. Float arithmetic is
not exercised by any rule considered here and is modelled as a
`typeError` as well. -/
def asArith : Value → Except PyErr Int
  | .int n => .ok n
  | .bool b => .ok (if b then 1 else 0)
  | _ => .error .typeError

/-- `Expression.evaluate(vars)`: looks every variable up in the supplied
binding list and evaluates arithmetically; an unbound variable raises
(py_expression_eval raises `Exception('undefined variable ...')`). -/
def PExpr.evaluate : PExpr → List (String × Value) → Except PyErr Value
  | .num n, _ => .ok (.int n)
  | .var v, env =>
      match lookupKV env v with
      | some x => .ok x
      | none => .error .undefinedVariable
  | .add a b, env => do
      let x ← asArith (← a.evaluate env)
      let y ← asArith (← b.evaluate env)
      .ok (.int (x + y))
  | .sub a b, env => do
      let x ← asArith (← a.evaluate env)
      let y ← asArith (← b.evaluate env)
      .ok (.int (x - y))
  | .mul a b, env => do
      let x ← asArith (← a.evaluate env)
      let y ← asArith (← b.evaluate env)
      .ok (.int (x * y))

/-- Modelled from the spec: `variable_to_jsonpath` from the repository's
`expr` module together with `json_path` from its `config` module, both
imported by the handler but not present under `src/`.  Per the spec, the
resolver "converts each placeholder to a path expression": a placeholder
`JSON__payload__value` (fixed namespace prefix `JSON__`, path segments
separated by `__`) becomes the path `payload.value` rooted at the
message context. -/
def variable_to_jsonpath (v : String) : List Step :=
  (splitOnUUAux (v.toList.drop 6) []).map Step.field

/-- A configuration-compiled value reference as dispatched on by
`_get_value_from_str_or_JSONPath`: a plain string literal, a compiled
`jsonpath_ng.JSONPath`, or a compiled `py_expression_eval.Expression`. -/
inductive Param where
  | str (s : String)
  | path (p : List Step)
  | expr (e : PExpr)
  deriving DecidableEq, Repr

/-- The variable-binding loop of `_get_value_from_str_or_JSONPath` for
the Expression case: every variable starting with `JSON__` is converted
to a jsonpath and, when the path finds a match, bound to the first
match; other variables (and missed lookups) are logged and skipped. -/
def exprBindVars (e : PExpr) (msg : Value) : List (String × Value) :=
  e.variables.foldl
    (fun vars v =>
      if strStartsWith v "JSON__" then
        match pathFind (variable_to_jsonpath v) msg with
        | x :: _ => vars ++ [(v, x)]
        | [] => vars
      else vars)
    []

/-- `Mqtt2InfluxDB._get_value_from_str_or_JSONPath(param, msg)`.
A string is returned unchanged; a jsonpath returns its first match (the
implicit Python `None` — here `.null` — when nothing matches); an
expression is evaluated over the bindings collected by `exprBindVars`
(which may raise on an unbound variable). -/
def get_value_from_str_or_JSONPath (param : Param) (msg : Value) :
    Except PyErr Value :=
  match param with
  | .str s => .ok (.str s)
  | .path p =>
      .ok (match pathFind p msg with
           | x :: _ => x
           | [] => .null)
  | .expr e => e.evaluate (exprBindVars e msg)

/-! ### Clock rendering, hex and UTF-8 (models of Python stdlib collaborators) -/

/-- Left-pad a decimal rendering to two digits (strftime `%m` etc.). -/
def pad2 (n : Nat) : String :=
  if n < 10 then "0" ++ toString n else toString n

/-- Left-pad a decimal rendering to four digits (strftime `%Y`). -/
def pad4 (n : Nat) : String :=
  if n < 10 then "000" ++ toString n
  else if n < 100 then "00" ++ toString n
  else if n < 1000 then "0" ++ toString n
  else toString n

/-- Proleptic-Gregorian civil date (year, month, day) from a count of
days since 1970-01-01 (the standard days-from-civil inverse, specialised
to nonnegative day counts, which is the range this program exercises). -/
def civilFromDays (z0 : Nat) : Nat × Nat × Nat :=
  let z := z0 + 719468
  let era := z / 146097
  let doe := z % 146097
  let yoe := (doe - doe / 1460 + doe / 36524 - doe / 146096) / 365
  let doy := doe - (365 * yoe + yoe / 4 - yoe / 100)
  let mp := (5 * doy + 2) / 153
  let d := doy - (153 * mp + 2) / 5 + 1
  let m := if mp < 10 then mp + 3 else mp - 9
  let y := yoe + era * 400 + (if m ≤ 2 then 1 else 0)
  (y, m, d)

/-- `datetime.strftime('%Y-%m-%dT%H:%M:%SZ')` applied to the UTC
datetime holding the given epoch-second count: the RFC3339-shaped
rendering the handler builds.  Modelled for nonnegative epochs (the
program only ever renders post-1970 instants; `datetime` would raise on
the out-of-range ones). -/
def rfc3339 (t : Int) : String :=
  let tt := t.toNat
  let days := tt / 86400
  let secs := tt % 86400
  let ymd := civilFromDays days
  pad4 ymd.1 ++ "-" ++ pad2 ymd.2.1 ++ "-" ++ pad2 ymd.2.2 ++ "T" ++
    pad2 (secs / 3600) ++ ":" ++ pad2 (secs % 3600 / 60) ++ ":" ++
    pad2 (secs % 60) ++ "Z"

/-- One byte as two lowercase hex digits (`bytes.hex()` per byte). -/
def hexByte (b : Nat) : String :=
  let digit := fun (d : Nat) => String.singleton (Nat.digitChar d)
  digit (b / 16 % 16) ++ digit (b % 16)

/-- `bytes.hex()`: lowercase hex rendering of a byte string. -/
def hexStr (bs : List Nat) : String :=
  String.join (bs.map hexByte)

/-- Strict UTF-8 decoding of a byte list into characters, as performed
by Python's `bytes.decode('utf-8')`: rejects stray continuation bytes,
overlong encodings, surrogate code points and code points beyond
U+10FFFF; `none` models a raised `UnicodeDecodeError`. -/
def utf8DecodeAux : List Nat → Option (List Char)
  | [] => some []
  | b :: rest =>
    if b < 0x80 then
      (utf8DecodeAux rest).map (fun cs => Char.ofNat b :: cs)
    else if b < 0xC2 then
      none
    else if b < 0xE0 then
      match rest with
      | b1 :: rest2 =>
          if 0x80 ≤ b1 && b1 < 0xC0 then
            (utf8DecodeAux rest2).map
              (fun cs => Char.ofNat ((b - 0xC0) * 64 + (b1 - 0x80)) :: cs)
          else none
      | [] => none
    else if b < 0xF0 then
      match rest with
      | b1 :: b2 :: rest3 =>
          if 0x80 ≤ b1 && b1 < 0xC0 && 0x80 ≤ b2 && b2 < 0xC0 then
            let cp := (b - 0xE0) * 4096 + (b1 - 0x80) * 64 + (b2 - 0x80)
            if cp < 0x800 || (0xD800 ≤ cp && cp < 0xE000) then none
            else (utf8DecodeAux rest3).map (fun cs => Char.ofNat cp :: cs)
          else none
      | _ => none
    else if b < 0xF5 then
      match rest with
      | b1 :: b2 :: b3 :: rest4 =>
          if 0x80 ≤ b1 && b1 < 0xC0 && 0x80 ≤ b2 && b2 < 0xC0 &&
             0x80 ≤ b3 && b3 < 0xC0 then
            let cp := (b - 0xF0) * 262144 + (b1 - 0x80) * 4096 +
                      (b2 - 0x80) * 64 + (b3 - 0x80)
            if cp < 0x10000 || 0x110000 ≤ cp then none
            else (utf8DecodeAux rest4).map (fun cs => Char.ofNat cp :: cs)
          else none
      | _ => none
    else none

/-- `message.payload.decode('utf-8')` as a total function into
`Option String`; `none` models the raised `UnicodeDecodeError`. -/
def utf8Decode (bs : List Nat) : Option String :=
  (utf8DecodeAux bs).map List.asString

/-! ### Conversion functions (the `getattr(builtins, ...)` table) -/

/-- Python `int(x)`: ints and bools pass through, floats truncate toward
zero, strings parse as decimal integers (`ValueError` on failure), other
operands raise `TypeError`. -/
def pyIntFn : Value → Except PyErr Value
  | .int n => .ok (.int n)
  | .bool b => .ok (.int (if b then 1 else 0))
  | .float q => .ok (.int (if 0 ≤ q then Int.floor q else Int.ceil q))
  | .str s =>
      match s.toInt? with
      | some n => .ok (.int n)
      | none => .error .valueError
  | _ => .error .typeError

/-- Python `float(x)` restricted to the operand shapes this program can
feed it; decimal-fraction string parsing is approximated by integer
parsing (no rule under consideration converts fractional strings). -/
def pyFloatFn : Value → Except PyErr Value
  | .int n => .ok (.float n)
  | .bool b => .ok (.float (if b then 1 else 0))
  | .float q => .ok (.float q)
  | .str s =>
      match s.toInt? with
      | some n => .ok (.float n)
      | none => .error .valueError
  | _ => .error .typeError

/-- Python `str(x)` for the scalar shapes the engine produces; container
and float renderings are crude approximations (never exercised by the
claims below).  `str` never raises. -/
def pyStrFn : Value → Except PyErr Value
  | .null => .ok (.str "None")
  | .bool b => .ok (.str (if b then "True" else "False"))
  | .int n => .ok (.str (toString n))
  | .float q => .ok (.str (toString q))
  | .str s => .ok (.str s)
  | .arr _ => .ok (.str "[...]")
  | .obj _ => .ok (.str "...")
  | .bytes _ => .ok (.str "b...")

/-- Python `bool(x)`: plain truthiness, never raises. -/
def pyBoolFn (v : Value) : Except PyErr Value :=
  .ok (.bool (pyTruthy v))

/-- Python `abs(x)` on the numeric shapes; other operands raise. -/
def pyAbsFn : Value → Except PyErr Value
  | .int n => .ok (.int n.natAbs)
  | .bool b => .ok (.int (if b then 1 else 0))
  | .float q => .ok (.float |q|)
  | _ => .error .typeError

/-- Python `len(x)` on sized shapes; other operands raise. -/
def pyLenFn : Value → Except PyErr Value
  | .str s => .ok (.int s.length)
  | .arr xs => .ok (.int xs.length)
  | .obj kvs => .ok (.int kvs.length)
  | .bytes bs => .ok (.int bs.length)
  | _ => .error .typeError

/-- `getattr(builtins, name, None)` as used for the per-field conversion
lookup, restricted to the builtin names this development exercises;
builtin names outside this table are modelled as absent.  Note that the
table is in no way limited to type constructors: any builtin name found
here is called on the resolved value. -/
def getattrBuiltins : String → Option (Value → Except PyErr Value)
  | "int" => some pyIntFn
  | "float" => some pyFloatFn
  | "str" => some pyStrFn
  | "bool" => some pyBoolFn
  | "abs" => some pyAbsFn
  | "len" => some pyLenFn
  | _ => none

/-! ### Configuration shapes -/

/-- One entry of a rule's `fields` mapping: either the typed dict shape
`{value: ..., type: ...}` or a bare value reference. -/
inductive FieldEntry where
  | typed (value : Param) (conv : String)
  | bare (p : Param)

/-- A rule's `fields` configuration: either a single compiled jsonpath
(the `isinstance(point['fields'], jsonpath_ng.JSONPath)` branch) or a
mapping of field names to entries. -/
inductive FieldsSpec where
  | jsonpath (p : List Step)
  | map (m : List (String × FieldEntry))

/-- Lookup in a `fields` mapping (`'type' in point['fields']`). -/
def lookupField (m : List (String × FieldEntry)) (k : String) :
    Option FieldEntry :=
  match m with
  | [] => none
  | (k1, e) :: rest => if k1 = k then some e else lookupField rest k

/-- The source's `'type' in point['fields'] and point['fields']['type']
== 'booltoint'` test: true exactly when the configured `fields` mapping
binds the key `type` to the bare string `booltoint` (a compiled jsonpath
or a dict entry never compares equal to a string in Python). -/
def fieldsTypeIsBooltoint (m : List (String × FieldEntry)) : Bool :=
  match lookupField m "type" with
  | some (.bare (.str s)) => s == "booltoint"
  | _ => false

/-- One configured rule ("point"). -/
structure Point where
  topic : String
  measurement : Param
  fields : Option FieldsSpec := none
  tags : Option (List (String × Param)) := none
  schedule : Option String := none
  database : Option String := none
  httpcontent : Option (List (String × Param)) := none

/-- The optional top-level `http` configuration block. -/
structure HttpCfg where
  action : String
  destination : String
  username : String
  password : String

/-- The slice of the top-level configuration the handler reads. -/
structure Config where
  points : List Point
  base64decode : Option (Param × String) := none
  http : Option HttpCfg := none

/-- External collaborators of the handler, as deterministic parameters:
the JSON parser (`none` models a raised parse error), the host clock
(`nowEpoch`, read by `datetime.utcnow`), the host timezone offset in
seconds (applied by `datetime.fromtimestamp`, which converts to LOCAL
time), `pycron.is_now`, `base64.b64decode` and the
`getattr(requests, ...)` verb test. -/
structure Env where
  parseJson : String → Option Value
  nowEpoch : Int
  tzOffset : Int
  pycron_is_now : String → Bool
  b64decode : Value → Except PyErr (List Nat)
  requestsHasVerb : String → Bool

/-- An InfluxDB record as assembled by the handler. -/
structure Record where
  measurement : Value
  time : String
  tags : Value
  fields : Value

/-- An observable sink call: an InfluxDB `write_points` submission (with
the rule's database override) or an outbound HTTP request. -/
inductive Effect where
  | write (r : Record) (database : Option String)
  | httpSend (action : String) (destination : String)
      (data : List (String × Value))

/-- Outcome of processing one rule for one message: fall through to the
next rule (Python `continue` / loop end, with the possibly-mutated
message context), return from the whole handler (Python `return`), or an
uncaught exception.  Each outcome carries the sink calls made before it. -/
inductive StepOut where
  | next (msg : Value) (effs : List Effect)
  | stop (effs : List Effect)
  | raised (e : PyErr) (effs : List Effect)

/-- The sink calls recorded in a `StepOut`. -/
def stepEffects : StepOut → List Effect
  | .next _ effs => effs
  | .stop effs => effs
  | .raised _ effs => effs

/-! ### Timestamp determination (source lines 139-147) -/

/-- `'timestamp' in payload.keys()` with the found value: raises
`AttributeError` when the payload is not a dict (e.g. a string payload
after a JSON-parse fallback), as in the source where the check sits in a
`try` block. -/
def embeddedTsCheck : Value → Except PyErr (Option Value)
  | .obj kvs => .ok (lookupKV kvs "timestamp")
  | _ => .error .attributeError

/-- The epoch-seconds reading `datetime.fromtimestamp` performs on the
embedded timestamp value: numbers (and bools) are accepted, floats
truncate for the `%S` rendering, anything else raises `TypeError`
(which the source catches, falling back to the current time). -/
def tsToEpoch : Value → Except PyErr Int
  | .int n => .ok n
  | .bool b => .ok (if b then 1 else 0)
  | .float q => .ok (if 0 ≤ q then Int.floor q else Int.ceil q)
  | _ => .error .typeError

/-- The record timestamp computed at source lines 139-147: start from
`datetime.utcnow()`, then, when the payload has a readable `timestamp`
key, replace it with `datetime.fromtimestamp(...)` — a LOCAL-time
conversion, modelled by the host timezone offset — rendered with a
literal `Z` suffix; every failure inside the `try` is caught and leaves
the wall-clock fallback in place. -/
def computeTimestamp (env : Env) (payload : Value) : String :=
  match embeddedTsCheck payload with
  | .error _ => rfc3339 env.nowEpoch
  | .ok none => rfc3339 env.nowEpoch
  | .ok (some tv) =>
      match tsToEpoch tv with
      | .error _ => rfc3339 env.nowEpoch
      | .ok t => rfc3339 (t + env.tzOffset)

/-! ### Record builder (source lines 128-226) -/

/-- The payload slot of the message context. -/
def msgPayload (msg : Value) : Value :=
  match msg with
  | .obj kvs => (lookupKV kvs "payload").getD .null
  | _ => .null

/-- The base64 side-channel merge (source lines 154-159): resolve the
configured source, decode it, `msg.update` the raw bytes under the
target key, then `msg.update` the hex string under the same key — the
second update REPLACES the whole `base64decoded` entry. -/
def applyBase64 (cfg : Config) (env : Env) (msg : Value) :
    Except PyErr Value :=
  match cfg.base64decode with
  | none => .ok msg
  | some (src, tgt) => do
      let data ← get_value_from_str_or_JSONPath src msg
      let ds ← env.b64decode data
      let msg1 := objSet msg "base64decoded"
        (.obj [(tgt, .obj [("raw", .bytes ds)])])
      .ok (objSet msg1 "base64decoded"
        (.obj [(tgt, .obj [("hex", .str (hexStr ds))])]))

/-- Processing of one `fields` entry (source lines 167-190), producing
the value to store; `.null` means the entry is skipped (`continue`).
The typed dict shape resolves, skips `None`, then applies the builtin
found under the configured conversion name, a `ValueError` turning the
value back into `None`.  The bare shape applies the legacy
`booltoint` normalization to the field named `value` and rewrites the
field named `type` from `booltoint` to `int`. -/
def buildFieldEntry (m : List (String × FieldEntry)) (key : String)
    (entry : FieldEntry) (msg : Value) : Except PyErr Value :=
  match entry with
  | .typed vref conv =>
      match get_value_from_str_or_JSONPath vref msg with
      | .error e => .error e
      | .ok val =>
          if val.isNull then .ok .null
          else
            match getattrBuiltins conv with
            | none => .ok val
            | some f =>
                match f val with
                | .ok v2 => .ok v2
                | .error .valueError => .ok .null
                | .error e => .error e
  | .bare p =>
      match get_value_from_str_or_JSONPath p msg with
      | .error e => .error e
      | .ok val =>
          if key = "value" then
            match val with
            | .bool b =>
                if fieldsTypeIsBooltoint m then
                  .ok (.int (if b then 1 else 0))
                else .ok (.bool b)
            | v => .ok v
          else if key = "type" then
            match val with
            | .str s => if s = "booltoint" then .ok (.str "int") else .ok (.str s)
            | v => .ok v
          else .ok val

/-- The `for key in point['fields']` loop: entries whose value comes out
`None` are dropped, others are stored in order. -/
def buildFieldsGo (m : List (String × FieldEntry)) (msg : Value) :
    List (String × FieldEntry) → Value → Except PyErr Value
  | [], acc => .ok acc
  | (k, e) :: rest, acc =>
      match buildFieldEntry m k e msg with
      | .error err => .error err
      | .ok v =>
          if v.isNull then buildFieldsGo m msg rest acc
          else buildFieldsGo m msg rest (objSet acc k v)

/-- `record['fields']` after source lines 161-193: `{}` when the rule
has no `fields` key, the first jsonpath match (or `None`) when the
configuration compiled `fields` to a single jsonpath, otherwise the
mapping assembled entry by entry. -/
def buildFields (spec : Option FieldsSpec) (msg : Value) :
    Except PyErr Value :=
  match spec with
  | none => .ok (.obj [])
  | some (.jsonpath p) => get_value_from_str_or_JSONPath (.path p) msg
  | some (.map m) => buildFieldsGo m msg m (.obj [])

/-- The `for key in point['tags']` loop (source lines 199-208):
resolution misses are dropped, others stored. -/
def buildTagsGo (msg : Value) :
    List (String × Param) → Value → Except PyErr Value
  | [], acc => .ok acc
  | (k, p) :: rest, acc =>
      match get_value_from_str_or_JSONPath p msg with
      | .error e => .error e
      | .ok v =>
          if v.isNull then buildTagsGo msg rest acc
          else buildTagsGo msg rest (objSet acc k v)

/-- `record['tags']` after source lines 199-208. -/
def buildTags (tags : Option (List (String × Param))) (msg : Value) :
    Except PyErr Value :=
  match tags with
  | none => .ok (.obj [])
  | some entries => buildTagsGo msg entries (.obj [])

/-- The HTTP forwarding block (source lines 214-226): only runs when the
top-level `http` configuration exists; `point['httpcontent']` raises
`KeyError` when the rule lacks the key; resolution misses are skipped;
an unknown HTTP verb is logged and produces no call. -/
def httpGo (msg : Value) :
    List (String × Param) → List (String × Value) →
    Except PyErr (List (String × Value))
  | [], acc => .ok acc
  | (k, p) :: rest, acc =>
      match get_value_from_str_or_JSONPath p msg with
      | .error e => .error e
      | .ok v =>
          if v.isNull then httpGo msg rest acc
          else httpGo msg rest (setKV acc k v)

/-- See `httpGo`; yields the outbound HTTP effects of one rule. -/
def httpPart (cfg : Config) (env : Env) (point : Point) (msg : Value) :
    Except PyErr (List Effect) :=
  match cfg.http with
  | none => .ok []
  | some h =>
      match point.httpcontent with
      | none => .error .keyError
      | some entries =>
          match httpGo msg entries [] with
          | .error e => .error e
          | .ok data =>
              if env.requestsHasVerb h.action then
                .ok [.httpSend h.action h.destination data]
              else .ok []

/-- The body of one iteration of the rule loop after the schedule gate
(source lines 134-226): measurement, timestamp, base64 merge, fields,
empty-fields guard, tags, InfluxDB write, HTTP forwarding.  A `None`
measurement or an empty field set RETURNS from the whole handler. -/
def processPointBody (cfg : Config) (env : Env) (point : Point)
    (msg : Value) : StepOut :=
  match get_value_from_str_or_JSONPath point.measurement msg with
  | .error e => .raised e []
  | .ok measurement =>
    if measurement.isNull then .stop []
    else
      match applyBase64 cfg env msg with
      | .error e => .raised e []
      | .ok msg2 =>
          match buildFields point.fields msg2 with
          | .error e => .raised e []
          | .ok fields =>
              if pyTruthy fields then
                match buildTags point.tags msg2 with
                | .error e => .raised e []
                | .ok tags =>
                    match httpPart cfg env point msg2 with
                    | .error e =>
                        .raised e [.write ⟨measurement,
                          computeTimestamp env (msgPayload msg),
                          tags, fields⟩ point.database]
                    | .ok hEffs =>
                        .next msg2 (.write ⟨measurement,
                          computeTimestamp env (msgPayload msg),
                          tags, fields⟩ point.database :: hEffs)
              else .stop []

/-- One iteration of the rule loop: the schedule gate (source lines
128-132) then the body. -/
def processPoint (cfg : Config) (env : Env) (point : Point)
    (msg : Value) : StepOut :=
  match point.schedule with
  | some sch =>
      if env.pycron_is_now sch then processPointBody cfg env point msg
      else .next msg []
  | none => processPointBody cfg env point msg

/-! ### Dispatch (source lines 101-127 and the loop skeleton) -/

/-- Level-by-level MQTT topic filter match (`+` one level, `#` the
remainder), the core of paho's `topic_matches_sub`. -/
def matchLevels : List String → List String → Bool
  | [], [] => true
  | ["#"], _ => true
  | s :: ss, t :: ts => (s == "+" || s == t) && matchLevels ss ts
  | _, _ => false

/-- paho's `topic_matches_sub` (wildcard subscriptions do not match
`$`-prefixed topics). -/
def topic_matches_sub (sub topicStr : String) : Bool :=
  if strStartsWith topicStr "$" &&
     (strStartsWith sub "+" || strStartsWith sub "#")
  then false
  else matchLevels (splitOnChar '/' sub) (splitOnChar '/' topicStr)

/-- The message-context construction (source lines 109-127): decode the
payload bytes as UTF-8 (an invalid body raises `UnicodeDecodeError`
OUTSIDE any `try`), substitute `'null'` for the empty text, attempt the
JSON parse, degrade to the raw text on parse failure, and assemble the
context dict. -/
def buildMsg (env : Env) (topicStr : String) (payloadBytes : List Nat)
    (mts qos : Value) : Except PyErr Value :=
  match utf8Decode payloadBytes with
  | none => .error .unicodeDecodeError
  | some s =>
      let s1 := if s = "" then "null" else s
      let payload :=
        match env.parseJson s1 with
        | some v => v
        | none => .str s1
      .ok (.obj [("topic", .arr ((splitOnChar '/' topicStr).map Value.str)),
                 ("payload", payload),
                 ("timestamp", mts),
                 ("qos", qos)])

/-- Outcome of the whole handler for one message: normal completion or
an uncaught exception, with the sink calls made along the way. -/
inductive HandlerResult where
  | done (effs : List Effect)
  | raised (e : PyErr) (effs : List Effect)

/-- The sink calls recorded in a `HandlerResult`. -/
def resultEffects : HandlerResult → List Effect
  | .done effs => effs
  | .raised _ effs => effs

/-- The `for point in self._points` loop of `_on_mqtt_message`: the
context is built lazily at the first matching rule and shared (including
base64 mutations) with later rules; a rule's `return` ends the loop; an
uncaught exception aborts the handler. -/
def runPointsAux (cfg : Config) (env : Env) (topicStr : String)
    (payloadBytes : List Nat) (mts qos : Value) :
    List Point → Option Value → List Effect → HandlerResult
  | [], _, acc => .done acc
  | p :: rest, msgOpt, acc =>
      if topic_matches_sub p.topic topicStr then
        match (match msgOpt with
               | some m => (.ok m : Except PyErr Value)
               | none => buildMsg env topicStr payloadBytes mts qos) with
        | .error e => .raised e acc
        | .ok msg =>
            match processPoint cfg env p msg with
            | .next msg2 effs =>
                runPointsAux cfg env topicStr payloadBytes mts qos rest
                  (some msg2) (acc ++ effs)
            | .stop effs => .done (acc ++ effs)
            | .raised e effs => .raised e (acc ++ effs)
      else runPointsAux cfg env topicStr payloadBytes mts qos rest msgOpt acc

/-- `Mqtt2InfluxDB._on_mqtt_message`: dispatch one inbound message
against the configured rules. -/
def on_mqtt_message (cfg : Config) (env : Env) (topicStr : String)
    (payloadBytes : List Nat) (mts qos : Value) : HandlerResult :=
  runPointsAux cfg env topicStr payloadBytes mts qos cfg.points none []

/-! ### Concrete fixtures

A deterministic environment and a handful of configured rules used to
instantiate the theorems below on concrete inputs.  The JSON parser is
instantiated on exactly the payload texts these scenarios use; the host
clock is frozen at epoch 1600000000 and the host timezone is UTC+1
(offset 3600 seconds), a perfectly ordinary deployment. -/

/-- A concrete collaborator environment (host at UTC+1). -/
def envFix : Env where
  parseJson := fun s =>
    if s = "null" then some .null
    else if s = "1" then some (.int 1)
    else if s = "true" then some (.bool true)
    else if s = "-5" then some (.int (-5))
    else if s = "\x7b\"timestamp\": 1700000000, \"value\": 5\x7d" then
      some (.obj [("timestamp", .int 1700000000), ("value", .int 5)])
    else none
  nowEpoch := 1600000000
  tzOffset := 3600
  pycron_is_now := fun s => s != "closed"
  b64decode := fun v =>
    match v with
    | .str _ => .ok [1, 171]
    | _ => .error .valueError
  requestsHasVerb := fun _ => false

/-- The same environment on a host whose timezone is UTC. -/
def envZero : Env := { envFix with tzOffset := 0 }

/-- A plain healthy rule: literal measurement, one bare field reading
the whole payload. -/
def pointGood : Point where
  topic := "t"
  measurement := .str "m"
  fields := some (.map [("v", .bare (.path [.field "payload"]))])

/-- A rule whose measurement jsonpath matches nothing (resolves to
`None`). -/
def pointMissM : Point where
  topic := "t"
  measurement := .path [.field "nope"]
  fields := some (.map [("v", .bare (.path [.field "payload"]))])

/-- The failing rule listed BEFORE the healthy rule. -/
def cfgAB : Config := { points := [pointMissM, pointGood] }

/-- The healthy rule alone. -/
def cfgGood : Config := { points := [pointGood] }

/-- A rule using the typed FieldSpec shape with conversion name
`booltoint`. -/
def pointTypedBool : Point where
  topic := "t"
  measurement := .str "m"
  fields := some (.map [("v", .typed (.path [.field "payload"]) "booltoint")])

/-- Configuration holding only `pointTypedBool`. -/
def cfgTypedBool : Config := { points := [pointTypedBool] }

/-- A rule using the typed FieldSpec shape with conversion name `abs`
(not one of the primitive-constructor names). -/
def pointAbs : Point where
  topic := "t"
  measurement := .str "m"
  fields := some (.map [("v", .typed (.path [.field "payload"]) "abs")])

/-- Configuration holding only `pointAbs`. -/
def cfgAbs : Config := { points := [pointAbs] }

/-- A scheduled variant of the healthy rule whose cron expression the
environment reports as inactive. -/
def pointSched : Point where
  topic := "t"
  measurement := .str "m"
  fields := some (.map [("v", .bare (.path [.field "payload"]))])
  schedule := some "closed"

/-- Configuration with the base64 side-channel enabled. -/
def cfgB64 : Config :=
  { points := [pointGood], base64decode := some (.str "Qas=", "decoded") }

/-- UTF-8 bytes of the payload text `1`. -/
def oneBytes : List Nat := [49]

/-- UTF-8 bytes of the (non-JSON) payload text `abc`. -/
def abcBytes : List Nat := [97, 98, 99]

/-- UTF-8 bytes of the payload text `true`. -/
def trueBytes : List Nat := [116, 114, 117, 101]

/-- UTF-8 bytes of the payload text `-5`. -/
def negfiveBytes : List Nat := [45, 53]

/-- UTF-8 bytes of the payload `\x7b"timestamp": 1700000000, "value": 5\x7d`. -/
def tsBytes : List Nat :=
  "\x7b\"timestamp\": 1700000000, \"value\": 5\x7d".toList.map Char.toNat

/-- The message context built for topic `t` and payload `1`. -/
def msgOne : Value :=
  .obj [("topic", .arr [.str "t"]), ("payload", .int 1),
        ("timestamp", .null), ("qos", .int 0)]

/-- A message context whose payload is the JSON object `value: 10`. -/
def msgExpr : Value :=
  .obj [("topic", .arr [.str "t"]), ("payload", .obj [("value", .int 10)]),
        ("timestamp", .null), ("qos", .int 0)]

/-! ### Helper lemmas -/

/-- A value that fails the `is None` test is not `null`. -/
theorem isNull_false_ne {v : Value} (h : v.isNull = false) : v ≠ .null := by
  cases v <;> simp_all [Value.isNull]

/-- Updating a dict and reading the same key back yields the update. -/
theorem lookupKV_setKV_self (kvs : List (String × Value)) (k : String)
    (v : Value) : lookupKV (setKV kvs k v) k = some v := by
  induction kvs with
  | nil => simp [setKV, lookupKV]
  | cons hd tl ih =>
      by_cases hk : hd.1 = k
      · simp [setKV, lookupKV, hk]
      · simp [setKV, lookupKV, hk, ih]

/-! ### Claims -/

/-- C7. Expression resolution: `_get_value_from_str_or_JSONPath`
evaluates an Expression over exactly the variable set collected by the
`JSON__`-prefix binding loop (each prefixed placeholder converted to a
path expression and resolved against the message context); the
placeholder `JSON__payload__value` converts to the path
`payload.value`; and the expression `JSON__payload__value * 2`
evaluated against a payload holding `value: 10` resolves to `20`. -/
theorem c7_expression_resolution :
    (∀ e msg, get_value_from_str_or_JSONPath (.expr e) msg =
      e.evaluate (exprBindVars e msg)) ∧
    variable_to_jsonpath "JSON__payload__value" =
      [.field "payload", .field "value"] ∧
    get_value_from_str_or_JSONPath
      (.expr (.mul (.var "JSON__payload__value") (.num 2))) msgExpr =
      .ok (.int 20) :=
  ⟨fun _ _ => rfl, rfl, rfl⟩

/-- C10. A payload that is not a JSON object (in particular a string
payload left by the JSON-parse fallback) makes the embedded-timestamp
check raise `AttributeError` inside the `try`; the exception is caught
and the record time is the current wall-clock rendering, processing
continuing normally. -/
theorem c10_string_payload_timestamp_fallback :
    ∀ (env : Env) (payload : Value), payload.isObj = false →
      embeddedTsCheck payload = .error .attributeError ∧
      computeTimestamp env payload = rfc3339 env.nowEpoch := by
  intro env payload h
  cases payload <;>
    simp_all [Value.isObj, embeddedTsCheck, computeTimestamp]

/-- Witness for C10 at the concrete string payload `abc`. -/
theorem c10_string_payload_timestamp_fallback_witness :
    embeddedTsCheck (.str "abc") = .error .attributeError ∧
    computeTimestamp envFix (.str "abc") = rfc3339 1600000000 :=
  c10_string_payload_timestamp_fallback envFix (.str "abc") rfl

/-- C9. Schedule gating: when a rule carries a schedule that the cron
evaluator reports inactive for the current minute, the rule produces no
record and no sink call — `processPoint` yields `continue` with no
effects and an unchanged context — and the dispatch loop moves on to
the next rule with the same accumulated effects, regardless of the
payload. -/
theorem c9_schedule_gate_skips_rule :
    ∀ (cfg : Config) (env : Env) (point : Point) (msg : Value) sch,
      point.schedule = some sch →
      env.pycron_is_now sch = false →
      processPoint cfg env point msg = .next msg [] ∧
      ∀ topicStr pb mts qos rest acc,
        runPointsAux cfg env topicStr pb mts qos (point :: rest)
          (some msg) acc =
        runPointsAux cfg env topicStr pb mts qos rest (some msg) acc := by
  intro cfg env point msg sch h1 h2
  have hp : processPoint cfg env point msg = .next msg [] := by
    simp [processPoint, h1, h2]
  refine ⟨hp, ?_⟩
  intro topicStr pb mts qos rest acc
  by_cases hm : topic_matches_sub point.topic topicStr
  · simp [runPointsAux, hm, hp]
  · simp [runPointsAux, hm]

/-- Witness for C9: the inactive scheduled rule is skipped and the loop
continues with the rest of the rule list. -/
theorem c9_schedule_gate_skips_rule_witness :
    processPoint cfgGood envFix pointSched msgOne = .next msgOne [] ∧
    runPointsAux cfgGood envFix "t" oneBytes .null (.int 0)
      [pointSched, pointGood] (some msgOne) [] =
    runPointsAux cfgGood envFix "t" oneBytes .null (.int 0)
      [pointGood] (some msgOne) [] := by
  have h := c9_schedule_gate_skips_rule cfgGood envFix pointSched msgOne
    "closed" rfl rfl
  exact ⟨h.1, h.2 "t" oneBytes .null (.int 0) [pointGood] []⟩

/-- C1 (counterexample). Failure is NOT isolated per rule: with the
missing-measurement rule listed before the healthy rule, the handler
returns at the failing rule and the healthy rule's record is never
written (`.done []`), although the healthy rule alone writes its
record for the very same message. -/
theorem c1_missing_measurement_blocks_later_rule_cex :
    on_mqtt_message cfgAB envFix "t" oneBytes .null (.int 0) = .done [] ∧
    on_mqtt_message cfgGood envFix "t" oneBytes .null (.int 0) =
      .done [.write ⟨.str "m", rfc3339 1600000000, .obj [],
        .obj [("v", .int 1)]⟩ none] :=
  ⟨rfl, rfl⟩

/-- C1 (amended). A missing-measurement (or empty-field-set) failure in
a rule ends the handler for the whole message: the dispatch loop
returns with only the effects accumulated by rules processed BEFORE the
failing one, and rules after it in the configured list are never
evaluated. -/
theorem c1_rule_failure_aborts_message :
    ∀ (cfg : Config) (env : Env) topicStr pb mts qos (p : Point) rest msg
      acc effs,
      topic_matches_sub p.topic topicStr = true →
      processPoint cfg env p msg = .stop effs →
      runPointsAux cfg env topicStr pb mts qos (p :: rest) (some msg) acc =
        .done (acc ++ effs) := by
  intro cfg env topicStr pb mts qos p rest msg acc effs h1 h2
  simp [runPointsAux, h1, h2]

/-- Witness for C1 (amended): the failing rule stops the loop before the
healthy rule that follows it. -/
theorem c1_rule_failure_aborts_message_witness :
    runPointsAux cfgAB envFix "t" oneBytes .null (.int 0)
      [pointMissM, pointGood] (some msgOne) [] = .done [] := by
  simpa using c1_rule_failure_aborts_message cfgAB envFix "t" oneBytes
    .null (.int 0) pointMissM [pointGood] msgOne [] [] rfl rfl

/-- C2 (counterexample). On a host at UTC+1 the payload
`\x7b"timestamp": 1700000000, "value": 5\x7d` produces a record whose time
is the LOCAL-time rendering `2023-11-14T23:13:20Z` with a `Z` suffix,
which differs from the RFC3339 UTC rendering of epoch 1700000000
(`2023-11-14T22:13:20Z`). -/
theorem c2_embedded_time_local_zone_cex :
    on_mqtt_message cfgGood envFix "t" tsBytes .null (.int 0) =
      .done [.write ⟨.str "m", "2023-11-14T23:13:20Z", .obj [],
        .obj [("v", .obj [("timestamp", .int 1700000000),
                          ("value", .int 5)])]⟩ none] ∧
    rfc3339 1700000000 = "2023-11-14T22:13:20Z" ∧
    "2023-11-14T23:13:20Z" ≠ "2023-11-14T22:13:20Z" :=
  ⟨rfl, rfl, by decide⟩

/-- C2 (amended). The embedded timestamp takes precedence over the wall
clock, but it is rendered through `datetime.fromtimestamp`, a local-time
conversion: the record time is the `Z`-suffixed rendering of the epoch
value shifted by the host timezone offset, which coincides with the
RFC3339 UTC rendering exactly when that offset is zero; when the
`timestamp` key is absent the time falls back to the current UTC time. -/
theorem c2_timestamp_precedence :
    ∀ (env : Env) (kvs : List (String × Value)) (t : Int),
      (lookupKV kvs "timestamp" = some (.int t) →
        computeTimestamp env (.obj kvs) = rfc3339 (t + env.tzOffset) ∧
        (env.tzOffset = 0 →
          computeTimestamp env (.obj kvs) = rfc3339 t)) ∧
      (lookupKV kvs "timestamp" = none →
        computeTimestamp env (.obj kvs) = rfc3339 env.nowEpoch) := by
  intro env kvs t
  constructor
  · intro h
    have h1 : computeTimestamp env (.obj kvs) = rfc3339 (t + env.tzOffset) := by
      simp [computeTimestamp, embeddedTsCheck, h, tsToEpoch]
    refine ⟨h1, ?_⟩
    intro h0
    simpa [h0] using h1
  · intro h
    simp [computeTimestamp, embeddedTsCheck, h]

/-- Witness for C2 (amended), on the UTC host and on the UTC+1 host. -/
theorem c2_timestamp_precedence_witness :
    computeTimestamp envZero (.obj [("timestamp", .int 1700000000)]) =
      rfc3339 1700000000 ∧
    computeTimestamp envFix (.obj [("timestamp", .int 1700000000)]) =
      rfc3339 (1700000000 + 3600) ∧
    computeTimestamp envFix (.obj [("other", .int 3)]) =
      rfc3339 1600000000 :=
  ⟨((c2_timestamp_precedence envZero [("timestamp", .int 1700000000)]
      1700000000).1 rfl).2 rfl,
   ((c2_timestamp_precedence envFix [("timestamp", .int 1700000000)]
      1700000000).1 rfl).1,
   (c2_timestamp_precedence envFix [("other", .int 3)] 0).2 rfl⟩

/-- C3 (counterexample). A non-UTF-8 payload does NOT degrade to a
string payload: the decode happens outside any `try`, so the handler
aborts with `UnicodeDecodeError` and no rule is processed — while the
same rule and environment happily process a decodable non-JSON body. -/
theorem c3_invalid_utf8_aborts_cex :
    on_mqtt_message cfgGood envFix "t" [255] .null (.int 0) =
      .raised .unicodeDecodeError [] ∧
    on_mqtt_message cfgGood envFix "t" abcBytes .null (.int 0) =
      .done [.write ⟨.str "m", rfc3339 1600000000, .obj [],
        .obj [("v", .str "abc")]⟩ none] :=
  ⟨rfl, rfl⟩

/-- C3 (amended). For a payload that IS valid UTF-8: empty text is
replaced by the text `null` before parsing (so an empty payload becomes
JSON null), and a JSON parse failure degrades to the raw decoded text
as a string payload, the context being built and dispatch continuing
(the message is not dropped).  Only a UTF-8 decode failure aborts. -/
theorem c3_json_failure_degrades_to_string :
    ∀ (env : Env) topicStr bs s (mts qos : Value),
      utf8Decode bs = some s →
      ((s ≠ "" → env.parseJson s = none →
        buildMsg env topicStr bs mts qos =
          .ok (.obj [("topic", .arr ((splitOnChar '/' topicStr).map .str)),
                     ("payload", .str s),
                     ("timestamp", mts), ("qos", qos)])) ∧
       (s = "" → env.parseJson "null" = some .null →
        buildMsg env topicStr bs mts qos =
          .ok (.obj [("topic", .arr ((splitOnChar '/' topicStr).map .str)),
                     ("payload", .null),
                     ("timestamp", mts), ("qos", qos)]))) := by
  intro env topicStr bs s mts qos hdec
  constructor
  · intro hne hparse
    simp [buildMsg, hdec, hne, hparse]
  · intro he hparse
    subst he
    simp [buildMsg, hdec, hparse]

/-- Witness for C3 (amended): the non-JSON body `abc` degrades to the
string payload `abc`; the empty body becomes JSON null. -/
theorem c3_json_failure_degrades_to_string_witness :
    buildMsg envFix "t" abcBytes .null (.int 0) =
      .ok (.obj [("topic", .arr ((splitOnChar '/' "t").map .str)),
                 ("payload", .str "abc"),
                 ("timestamp", .null), ("qos", .int 0)]) ∧
    buildMsg envFix "t" [] .null (.int 0) =
      .ok (.obj [("topic", .arr ((splitOnChar '/' "t").map .str)),
                 ("payload", .null),
                 ("timestamp", .null), ("qos", .int 0)]) :=
  ⟨(c3_json_failure_degrades_to_string envFix "t" abcBytes "abc" .null
      (.int 0) rfl).1 (by decide) rfl,
   (c3_json_failure_degrades_to_string envFix "t" [] "" .null
      (.int 0) rfl).2 rfl rfl⟩

/-- The message context of `msgOne` after the base64 merge of `cfgB64`:
the target key holds ONLY the hex rendering. -/
def msgB64Merged : Value :=
  .obj [("topic", .arr [.str "t"]), ("payload", .int 1),
        ("timestamp", .null), ("qos", .int 0),
        ("base64decoded", .obj [("decoded", .obj [("hex", .str "01ab")])])]

/-- C4 (counterexample). After the side-channel merge the designated
target key exposes only the hex-encoded string; the raw decoded bytes
are NOT addressable any more (the second `msg.update` replaced them). -/
theorem c4_raw_bytes_not_exposed_cex :
    applyBase64 cfgB64 envFix msgOne = .ok msgB64Merged ∧
    pathFind [.field "base64decoded", .field "decoded", .field "hex"]
      msgB64Merged = [.str "01ab"] ∧
    pathFind [.field "base64decoded", .field "decoded", .field "raw"]
      msgB64Merged = [] :=
  ⟨rfl, rfl, rfl⟩

/-- C4 (amended). When base64 decoding is enabled and succeeds, the
merged context binds the designated target key to a dict holding ONLY
the hex-encoded string of the decoded source field: the hex value is
addressable by subsequent ValueRef resolution, the raw bytes are not
(the raw-bytes update is immediately overwritten by the hex update at
the same key). -/
theorem c4_base64_merge_exposes_hex_only :
    ∀ (cfg : Config) (env : Env) (src : Param) (tgt : String)
      (kvs : List (String × Value)) (data : Value) (ds : List Nat),
      cfg.base64decode = some (src, tgt) →
      get_value_from_str_or_JSONPath src (.obj kvs) = .ok data →
      env.b64decode data = .ok ds →
      ∃ kvs2, applyBase64 cfg env (.obj kvs) = .ok (.obj kvs2) ∧
        pathFind [.field "base64decoded", .field tgt, .field "hex"]
          (.obj kvs2) = [.str (hexStr ds)] ∧
        pathFind [.field "base64decoded", .field tgt, .field "raw"]
          (.obj kvs2) = [] := by
  intro cfg env src tgt kvs data ds hcfg hsrc hds
  refine ⟨setKV (setKV kvs "base64decoded"
      (.obj [(tgt, .obj [("raw", .bytes ds)])])) "base64decoded"
      (.obj [(tgt, .obj [("hex", .str (hexStr ds))])]), ?_, ?_, ?_⟩
  · simp [applyBase64, hcfg, hsrc, hds, objSet, bind, Except.bind]
  · simp [pathFind, lookupKV_setKV_self, lookupKV]
  · simp [pathFind, lookupKV_setKV_self, lookupKV]

/-- Witness for C4 (amended) on the concrete merged context. -/
theorem c4_base64_merge_exposes_hex_only_witness :
    ∃ kvs2, applyBase64 cfgB64 envFix msgOne = .ok (.obj kvs2) ∧
      pathFind [.field "base64decoded", .field "decoded", .field "hex"]
        (.obj kvs2) = [.str (hexStr [1, 171])] ∧
      pathFind [.field "base64decoded", .field "decoded", .field "raw"]
        (.obj kvs2) = [] :=
  c4_base64_merge_exposes_hex_only cfgB64 envFix (.str "Qas=") "decoded"
    [("topic", .arr [.str "t"]), ("payload", .int 1),
     ("timestamp", .null), ("qos", .int 0)]
    (.str "Qas=") [1, 171] rfl rfl rfl

/-- C6 (counterexample). In the typed FieldSpec shape a conversion name
`booltoint` is looked up in `builtins`, finds nothing, and performs NO
coercion: a field resolving to boolean `true` is emitted as the boolean
`true`, not as the integer `1`. -/
theorem c6_typed_booltoint_no_coercion_cex :
    on_mqtt_message cfgTypedBool envFix "t" trueBytes .null (.int 0) =
      .done [.write ⟨.str "m", rfc3339 1600000000, .obj [],
        .obj [("v", .bool true)]⟩ none] ∧
    Value.obj [("v", .bool true)] ≠ .obj [("v", .int 1)] :=
  ⟨rfl, by simp⟩

/-- C6 (amended). The `booltoint` normalization happens only in the
bare-ValueRef shorthand, and there only for the field named `value` when
the fields mapping binds `type` to the bare string `booltoint`: a
boolean then becomes the integer 1/0.  In the typed FieldSpec shape the
name `booltoint` matches no builtin and the boolean passes through
unchanged. -/
theorem c6_booltoint_semantics :
    ∀ (m : List (String × FieldEntry)) (p vref : Param) (k : String)
      (msg : Value) (b : Bool),
      (get_value_from_str_or_JSONPath p msg = .ok (.bool b) →
       fieldsTypeIsBooltoint m = true →
       buildFieldEntry m "value" (.bare p) msg =
         .ok (.int (if b then 1 else 0))) ∧
      (get_value_from_str_or_JSONPath vref msg = .ok (.bool b) →
       buildFieldEntry m k (.typed vref "booltoint") msg =
         .ok (.bool b)) := by
  intro m p vref k msg b
  constructor
  · intro h1 h2
    simp [buildFieldEntry, h1, h2]
  · intro h1
    have hn : getattrBuiltins "booltoint" = none := rfl
    simp [buildFieldEntry, h1, hn, Value.isNull]

/-- The fields mapping of the bare-ValueRef `booltoint` shorthand. -/
def mBare : List (String × FieldEntry) :=
  [("value", .bare (.path [.field "payload", .field "f"])),
   ("type", .bare (.str "booltoint"))]

/-- A message context whose payload holds the boolean field `f`. -/
def msgFlag : Value := .obj [("payload", .obj [("f", .bool true)])]

/-- Witness for C6 (amended): shorthand coerces to `1`, typed shape
leaves `true` alone. -/
theorem c6_booltoint_semantics_witness :
    buildFieldEntry mBare "value"
      (.bare (.path [.field "payload", .field "f"])) msgFlag =
      .ok (.int 1) ∧
    buildFieldEntry mBare "v2"
      (.typed (.path [.field "payload", .field "f"]) "booltoint") msgFlag =
      .ok (.bool true) :=
  ⟨(c6_booltoint_semantics mBare (.path [.field "payload", .field "f"])
      (.str "x") "value" msgFlag true).1 rfl rfl,
   (c6_booltoint_semantics mBare (.str "x")
      (.path [.field "payload", .field "f"]) "v2" msgFlag true).2 rfl⟩

/-- C8 (counterexample). A conversion name outside the four
primitive-constructor names is NOT always identity: the name `abs`
resolves to the builtin `abs`, which coerces a field resolving to `-5`
into the emitted value `5`. -/
theorem c8_builtin_coercion_not_identity_cex :
    on_mqtt_message cfgAbs envFix "t" negfiveBytes .null (.int 0) =
      .done [.write ⟨.str "m", rfc3339 1600000000, .obj [],
        .obj [("v", .int 5)]⟩ none] ∧
    (("abs" : String) ≠ "int" ∧ ("abs" : String) ≠ "float" ∧
     ("abs" : String) ≠ "str" ∧ ("abs" : String) ≠ "bool") ∧
    Value.int 5 ≠ Value.int (-5) :=
  ⟨rfl, by decide, by simp⟩

/-- C8 (amended). A conversion name that resolves to NO builtin at all
is identity: the resolved (non-null) field value passes through
unchanged and no error is raised.  (Names that do resolve to some other
builtin — such as `abs` — invoke that builtin instead.) -/
theorem c8_unknown_builtin_identity :
    ∀ (m : List (String × FieldEntry)) (k : String) (vref : Param)
      (conv : String) (msg v : Value),
      getattrBuiltins conv = none →
      get_value_from_str_or_JSONPath vref msg = .ok v →
      v.isNull = false →
      buildFieldEntry m k (.typed vref conv) msg = .ok v := by
  intro m k vref conv msg v hc hv hn
  simp [buildFieldEntry, hv, hn, hc]

/-- Witness for C8 (amended) at the absent builtin name `booltoint`. -/
theorem c8_unknown_builtin_identity_witness :
    buildFieldEntry [] "v" (.typed (.str "lit") "booltoint") msgOne =
      .ok (.str "lit") :=
  c8_unknown_builtin_identity [] "v" (.str "lit") "booltoint" msgOne
    (.str "lit") rfl rfl rfl

/-- The configured ValueRef of a `fields` entry (its `value` part in the
typed shape, the reference itself in the bare shape). -/
def entryRef : FieldEntry → Param
  | .typed v _ => v
  | .bare p => p

/-- A field entry whose ValueRef resolves to `None` yields `None`
(dropped) whatever its shape, name or conversion. -/
theorem buildFieldEntry_null (m : List (String × FieldEntry)) (k : String)
    (e : FieldEntry) (msg : Value)
    (h : get_value_from_str_or_JSONPath (entryRef e) msg = .ok .null) :
    buildFieldEntry m k e msg = .ok .null := by
  cases e with
  | typed v c =>
      simp only [entryRef] at h
      simp [buildFieldEntry, h, Value.isNull]
  | bare p =>
      simp only [entryRef] at h
      simp only [buildFieldEntry, h]
      split_ifs <;> rfl

/-- When every entry of the fields loop yields `None`, the loop leaves
the accumulator unchanged. -/
theorem buildFieldsGo_all_null (m2 m : List (String × FieldEntry))
    (msg : Value) (acc : Value)
    (h : ∀ ke ∈ m2, buildFieldEntry m ke.1 ke.2 msg = .ok .null) :
    buildFieldsGo m msg m2 acc = .ok acc := by
  induction m2 with
  | nil => rfl
  | cons hd tl ih =>
      obtain ⟨k, e⟩ := hd
      have h1 : buildFieldEntry m k e msg = .ok .null := h (k, e) (by simp)
      simp only [buildFieldsGo, h1, Value.isNull, if_true]
      exact ih (fun ke hke => h ke (by simp [hke]))

/-- The HTTP forwarding block never performs an InfluxDB write. -/
theorem httpPart_no_write (cfg : Config) (env : Env) (p : Point)
    (msg : Value) (effs : List Effect) (r : Record) (db : Option String)
    (h : httpPart cfg env p msg = .ok effs) :
    Effect.write r db ∉ effs := by
  unfold httpPart at h
  split at h
  · simp only [Except.ok.injEq] at h
    subst h; simp
  · split at h
    · simp at h
    · split at h
      · simp at h
      · split at h
        · simp only [Except.ok.injEq] at h
          subst h; simp
        · simp only [Except.ok.injEq] at h
          subst h; simp

/-- Any write emitted by the body of a rule iteration carries a truthy
(non-empty) field set and a non-null measurement. -/
theorem processPointBody_write_inv (cfg : Config) (env : Env)
    (point : Point) (msg : Value) (r : Record) (db : Option String)
    (h : Effect.write r db ∈ stepEffects (processPointBody cfg env point msg)) :
    pyTruthy r.fields = true ∧ r.measurement ≠ .null := by
  unfold processPointBody at h
  split at h
  · simp [stepEffects] at h
  · rename_i measurement hmeas
    split at h
    · simp [stepEffects] at h
    · rename_i hnn
      split at h
      · simp [stepEffects] at h
      · rename_i msg2 happly
        split at h
        · simp [stepEffects] at h
        · rename_i fields hfields
          split at h
          · rename_i htruthy
            split at h
            · simp [stepEffects] at h
            · rename_i tags htags
              split at h
              · rename_i e hhttp
                simp only [stepEffects, List.mem_singleton] at h
                rw [Effect.write.injEq] at h
                obtain ⟨hr, _⟩ := h
                subst hr
                exact ⟨htruthy, isNull_false_ne (by simpa using hnn)⟩
              · rename_i hEffs hhttp
                simp only [stepEffects, List.mem_cons] at h
                rcases h with h | h
                · rw [Effect.write.injEq] at h
                  obtain ⟨hr, _⟩ := h
                  subst hr
                  exact ⟨htruthy, isNull_false_ne (by simpa using hnn)⟩
                · exact absurd h
                    (httpPart_no_write cfg env point msg2 hEffs r db hhttp)
          · simp [stepEffects] at h

/-- Under the all-fields-null hypothesis the body emits no write: the
assembled field set is empty and the empty-fields guard returns first. -/
theorem processPointBody_all_null_no_write (cfg : Config) (env : Env)
    (point : Point) (msg : Value) (m : List (String × FieldEntry))
    (hm : point.fields = some (.map m))
    (hnull : ∀ msg2, applyBase64 cfg env msg = .ok msg2 →
       ∀ ke ∈ m, get_value_from_str_or_JSONPath (entryRef ke.2) msg2 =
         .ok .null)
    (r : Record) (db : Option String) :
    Effect.write r db ∉ stepEffects (processPointBody cfg env point msg) := by
  intro h
  unfold processPointBody at h
  split at h
  · simp [stepEffects] at h
  · split at h
    · simp [stepEffects] at h
    · split at h
      · simp [stepEffects] at h
      · rename_i msg2 happly
        have hgo : buildFields point.fields msg2 = .ok (.obj []) := by
          rw [hm]
          exact buildFieldsGo_all_null m m msg2 (.obj [])
            (fun ke hke =>
              buildFieldEntry_null m ke.1 ke.2 msg2 (hnull msg2 happly ke hke))
        rw [hgo] at h
        simp [stepEffects, pyTruthy] at h

/-- C5. Record emission invariant: every record submitted to the
storage sink by a rule iteration has a truthy (non-empty) field set and
a non-null measurement; and when every configured field ValueRef of the
rule resolves to null against the (possibly base64-merged) context, the
iteration performs no write at all. -/
theorem c5_write_requires_fields_and_measurement :
    ∀ (cfg : Config) (env : Env) (point : Point) (msg : Value),
      (∀ r db,
        Effect.write r db ∈ stepEffects (processPoint cfg env point msg) →
        pyTruthy r.fields = true ∧ r.measurement ≠ .null) ∧
      (∀ m, point.fields = some (.map m) →
        (∀ msg2, applyBase64 cfg env msg = .ok msg2 →
           ∀ ke ∈ m, get_value_from_str_or_JSONPath (entryRef ke.2) msg2 =
             .ok .null) →
        ∀ r db,
          Effect.write r db ∉ stepEffects (processPoint cfg env point msg)) := by
  intro cfg env point msg
  constructor
  · intro r db h
    unfold processPoint at h
    split at h
    · split at h
      · exact processPointBody_write_inv cfg env point msg r db h
      · simp [stepEffects] at h
    · exact processPointBody_write_inv cfg env point msg r db h
  · intro m hm hnull r db h
    unfold processPoint at h
    split at h
    · split at h
      · exact processPointBody_all_null_no_write cfg env point msg m hm
          hnull r db h
      · simp [stepEffects] at h
    · exact processPointBody_all_null_no_write cfg env point msg m hm
        hnull r db h

/-- A rule whose single field reads a key absent from every payload. -/
def pointAllNull : Point where
  topic := "t"
  measurement := .str "m"
  fields := some (.map [("v", .bare (.path [.field "payload",
    .field "absent"]))])

/-- Witness for C5: the invariant instantiated on the healthy rule's
actual write, and the no-write conclusion on a rule whose only field
resolves to null. -/
theorem c5_write_requires_fields_and_measurement_witness :
    (pyTruthy (Value.obj [("v", .int 1)]) = true ∧
      Value.str "m" ≠ .null) ∧
    Effect.write ⟨.str "m", rfc3339 1600000000, .obj [], .obj []⟩ none ∉
      stepEffects (processPoint cfgGood envFix pointAllNull msgExpr) := by
  constructor
  · have hmem : Effect.write
        ⟨.str "m", rfc3339 1600000000, .obj [], .obj [("v", .int 1)]⟩ none ∈
        stepEffects (processPoint cfgGood envFix pointGood msgOne) := by
      have hstep : stepEffects (processPoint cfgGood envFix pointGood msgOne) =
          [.write ⟨.str "m", rfc3339 1600000000, .obj [],
            .obj [("v", .int 1)]⟩ none] := rfl
      rw [hstep]
      exact List.mem_singleton.mpr rfl
    exact (c5_write_requires_fields_and_measurement cfgGood envFix
      pointGood msgOne).1 _ none hmem
  · refine (c5_write_requires_fields_and_measurement cfgGood envFix
      pointAllNull msgExpr).2
        [("v", .bare (.path [.field "payload", .field "absent"]))] rfl
        ?_ _ none
    intro msg2 happly ke hke
    have hap : applyBase64 cfgGood envFix msgExpr = .ok msgExpr := rfl
    rw [hap] at happly
    simp only [Except.ok.injEq] at happly
    subst happly
    simp only [List.mem_singleton] at hke
    subst hke
    rfl

end M2I
